import Mathlib

/-
  A shallow embedding of the python-zendesk client library
  (src/zendesk/__init__.py) and proofs about its request/retry layer,
  its field registry and its ticket-data formatter.

  Python dicts are modelled as association lists with overwrite-on-insert,
  JSON values as an inductive type, and the HTTP session as a script: the
  list of responses the server would hand back to successive requests.
  Exceptions are modelled with `Except`; the observable side effects of a
  call (requests issued, sleeps performed) are returned as an event trace.
-/

namespace PyZendesk

/-- A Python dict key as used by this library: custom-field ids are numeric,
but the same dicts are also indexed with literal strings (titles, aliases,
the sentinel keys `options` and `custom_field_options`). -/
inductive FKey where
  | num (n : Int)
  | str (s : String)
deriving DecidableEq

/-- `%s`-rendering of a key for Python error messages. -/
def FKey.toMsg : FKey → String
  | FKey.num n => toString n
  | FKey.str s => s

/-- Python `d.get(k)` / `d[k]` lookup on a dict modelled as an association
list with unique keys (first match). -/
def dget {κ β : Type} [DecidableEq κ] (k : κ) : List (κ × β) → Option β
  | [] => none
  | (k', v) :: d => if k' = k then some v else dget k d

/-- Python `d[k] = v`: overwrite an existing binding in place, else append. -/
def dinsert {κ β : Type} [DecidableEq κ] (k : κ) (v : β) : List (κ × β) → List (κ × β)
  | [] => [(k, v)]
  | (k', v') :: d => if k' = k then (k, v) :: d else (k', v') :: dinsert k v d

/-- Python `k in d`. -/
def dmem {κ β : Type} [DecidableEq κ] (k : κ) (d : List (κ × β)) : Bool :=
  (dget k d).isSome

/-- Python `dict((key e, val e) for e in es)`: left-to-right insertion,
later duplicates overwrite earlier ones. -/
def buildDict {α κ β : Type} [DecidableEq κ] (key : α → κ) (val : α → β)
    (es : List α) : List (κ × β) :=
  es.foldl (fun d e => dinsert (key e) (val e) d) []

/-- Python `s.startswith(p)`. -/
def pyStartsWith (s p : String) : Bool := p.data.isPrefixOf s.data

def lbrace : Char := Char.ofNat 123

def rbrace : Char := Char.ofNat 125

/-- The tail of the `subdomain` placeholder, after its opening brace. -/
def sdTail : List Char := "subdomain".data ++ [rbrace]

/-- Fuelled scan replacing every `subdomain` placeholder with `sub`; fuel is
the length of the scanned text, so it never runs out. -/
def substAux (sub : List Char) : Nat → List Char → List Char
  | 0, l => l
  | _ + 1, [] => []
  | fuel + 1, c :: cs =>
    if c = lbrace && sdTail.isPrefixOf cs then
      sub ++ substAux sub fuel (cs.drop sdTail.length)
    else
      c :: substAux sub fuel cs

/-- Python `endpoint.format(subdomain=subdomain)` for templates whose only
placeholder is the subdomain one (the shape of the default endpoint). -/
def pyFormat (template subdomain : String) : String :=
  String.mk (substAux subdomain.data template.data.length template.data)

/-- Accumulate decimal digits; `none` on the first non-digit. -/
def digitsToNatAux (acc : Nat) : List Char → Option Nat
  | [] => some acc
  | c :: cs => if c.isDigit then digitsToNatAux (acc * 10 + (c.toNat - 48)) cs else none

/-- Python `int(s)` on a string: optional surrounding spaces, optional sign,
one or more decimal digits; anything else raises ValueError (here `none`). -/
def pyInt (s : String) : Option Int :=
  let t := ((s.data.dropWhile (fun c => c = ' ')).reverse.dropWhile (fun c => c = ' ')).reverse
  match t with
  | [] => none
  | '-' :: ds => if ds = [] then none else (digitsToNatAux 0 ds).map (fun n => -(n : Int))
  | '+' :: ds => if ds = [] then none else (digitsToNatAux 0 ds).map (fun n => (n : Int))
  | ds => (digitsToNatAux 0 ds).map (fun n => (n : Int))

/-- A JSON value, as produced by `json.loads`. -/
inductive J where
  | null
  | str (s : String)
  | num (n : Int)
  | arr (elems : List J)
  | obj (kvs : List (String × J))

/-- The positional/keyword argument bundle forwarded by `request` to the
underlying session call and re-used verbatim on a rate-limit retry. -/
structure ReqArgs where
  params : List (String × String)
  data : Option String
  headers : List (String × String)
deriving DecidableEq

/-- An HTTP response as the session returns it. `content` is the abstract
result of parsing the body as JSON (`none` when the body is not valid JSON);
`json` is the attribute `request` attaches on success. -/
structure Resp where
  status : Nat
  headers : List (String × String)
  text : String
  content : Option J
  json : Option J

/-- One issued HTTP request: method, fully resolved url, argument bundle. -/
structure Call where
  method : String
  url : String
  args : ReqArgs
deriving DecidableEq

/-- Observable side effects of the transport layer. -/
inductive Event where
  | request (c : Call)
  | sleep (n : Int)
deriving DecidableEq

/-- The exceptions this library can raise. `badStatus` is the
`ZendeskError("Bad status: ...")` raised at line 60 (the spec's
`RequestFailed`); it carries the method, the resolved url, the status code,
the response body text and the forwarded argument bundle. The others model
the raw Python exceptions that escape uncaught: `KeyError` from a missing
dict/headers key, `ValueError` from `int()`, `TypeError` from subscripting a
non-dict, `AssertionError` from a failed `assert`. `outOfResponses` marks
the boundary of the finite response script (the real code would simply keep
issuing requests). -/
inductive ZendeskError where
  | badStatus (method url : String) (status : Nat) (text : String) (args : ReqArgs)
  | keyError (k : String)
  | valueError (s : String)
  | typeError
  | assertionError (msg : String)
  | outOfResponses
deriving DecidableEq

/-- The client state set up by `Zendesk.__init__` (lines 11-19). -/
structure Zendesk where
  subdomain : String
  endpoint : String
  field_mapping : List (FKey × FKey)
  auto_retry : Bool
  timeout : Nat
  ignore_missing_fields : Bool

/-- The default endpoint template of the constructor signature. -/
def defaultEndpoint : String := "https://{subdomain}.zendesk.com/api/v2"

/-- `Zendesk.__init__` (lines 11-19). Note line 16 assigns the literal
`True` to `self.auto_retry`, ignoring the `auto_retry` constructor
argument; line 19 always starts `ignore_missing_fields` as `False`. -/
def Zendesk.init (subdomain : String) (field_mapping : List (FKey × FKey))
    (endpoint : String) (auto_retry : Bool) (timeout : Nat) : Zendesk :=
  { subdomain := subdomain
    endpoint := pyFormat endpoint subdomain
    field_mapping := field_mapping
    auto_retry := true
    timeout := timeout
    ignore_missing_fields := false }

/-- Line 52: a target that is not an absolute url is appended to the
configured base endpoint. -/
def resolveUrl (z : Zendesk) (url : String) : String :=
  if pyStartsWith url "http" then url else z.endpoint ++ url

/-- Lines 59-64: the handling of a response that is not retried — raise
`badStatus` when the status is at least 400, otherwise attach the
opportunistically parsed JSON and return the response. -/
def handleResp (method url : String) (args : ReqArgs) (ret : Resp) :
    Except ZendeskError Resp :=
  if 400 ≤ ret.status then
    Except.error (ZendeskError.badStatus method url ret.status ret.text args)
  else
    Except.ok { ret with json := ret.content }

/-- `Zendesk.request` (lines 51-64), run against a response script: each
session call consumes the next scripted response. On a 429 with auto-retry
set, the `Retry-After` header is read and parsed as an integer, the thread
sleeps for that many seconds, and the identical request (method, url just
resolved, args) is re-issued recursively. The first component is the call's
result, the second the trace of issued requests and sleeps. -/
def requestLoop (z : Zendesk) (method : String) :
    List Resp → String → ReqArgs → Except ZendeskError Resp × List Event
  | [], _, _ => (Except.error ZendeskError.outOfResponses, [])
  | ret :: rest, url, args =>
    let u := resolveUrl z url
    let issued : Event := Event.request ⟨method, u, args⟩
    if z.auto_retry && ret.status == 429 then
      match dget "Retry-After" ret.headers with
      | none => (Except.error (ZendeskError.keyError "Retry-After"), [issued])
      | some s =>
        match pyInt s with
        | none => (Except.error (ZendeskError.valueError s), [issued])
        | some n =>
          let res := requestLoop z method rest u args
          (res.1, issued :: Event.sleep n :: res.2)
    else
      (handleResp method u args ret, [issued])

/-- `Zendesk.request` with the source's argument order. -/
def Zendesk.request (z : Zendesk) (method url : String) (args : ReqArgs)
    (script : List Resp) : Except ZendeskError Resp × List Event :=
  requestLoop z method script url args

/-- `Zendesk.get` (lines 66-67). -/
def Zendesk.get (z : Zendesk) (url : String) (args : ReqArgs)
    (script : List Resp) : Except ZendeskError Resp × List Event :=
  z.request "GET" url args script

/-- Python subscripting `j[k]` on an opportunistically parsed JSON value:
`None[k]` and subscripting a non-object raise TypeError, a missing key
raises KeyError. -/
def subscript (j : Option J) (k : String) : Except ZendeskError J :=
  match j with
  | none => Except.error ZendeskError.typeError
  | some (J.obj kvs) =>
    match dget k kvs with
    | some v => Except.ok v
    | none => Except.error (ZendeskError.keyError k)
  | some _ => Except.error ZendeskError.typeError

/-- Python truthiness of an optional string argument: `None` and the empty
string are falsy. -/
def truthy : Option String → Bool
  | none => false
  | some s => s != ""

/-- The message of the `assert` at line 31. -/
def assertMsgUsers : String := "must specify either email or external_id!"

/-- `Zendesk.get_users` (lines 30-34): assert that email or external_id is
truthy, build the query params (email takes precedence), GET `/users.json`,
and subscript the parsed response at `users`. -/
def Zendesk.get_users (z : Zendesk) (email external_id : Option String)
    (script : List Resp) : Except ZendeskError J × List Event :=
  if truthy email || truthy external_id then
    let params := if truthy email then [("query", email.getD "")]
                  else [("external_id", external_id.getD "")]
    let res := z.get "/users.json" ⟨params, none, []⟩ script
    match res.1 with
    | Except.error e => (Except.error e, res.2)
    | Except.ok ret =>
      match subscript ret.json "users" with
      | Except.ok v => (Except.ok v, res.2)
      | Except.error e => (Except.error e, res.2)
  else
    (Except.error (ZendeskError.assertionError assertMsgUsers), [])

/-- One element of a field's raw `custom_field_options` sub-collection. -/
structure RawOption where
  value : String
deriving DecidableEq

/-- A raw custom-field entry as parsed from the field-listing response.
The code reads the keys `id` and `title`, tests for an `options` key
(`format_task_data`, line 121) and for a `custom_field_options` key; both
are optional in the entry dict. -/
structure RawField where
  id : FKey
  title : String
  options : Option (List String)
  custom_field_options : Option (List RawOption)
deriving DecidableEq

/-- A value of the id-keyed field cache: normally a field entry; the code
at line 107 would additionally store a plain list of option values under
the literal key `options`. -/
inductive CacheVal where
  | entry (e : RawField)
  | optValues (vs : List String)
deriving DecidableEq

/-- Line 105: `dict((e['id'], e) for e in ret.json['ticket_fields'])`. -/
def build_id_fields (ticket_fields : List RawField) : List (FKey × CacheVal) :=
  buildDict RawField.id CacheVal.entry ticket_fields

/-- `Zendesk._get_fields` after the GET (lines 105-108). The membership test
`'custom_field_options' in fields` at line 106 interrogates the id-keyed
dict just built — not the raw entries. When it succeeds, the value at that
key is a field-entry dict, and the comprehension
`[o['value'] for o in fields['custom_field_options']]` iterates that dict's
string keys, so `o['value']` subscripts a string and raises TypeError on the
first key (entry dicts are nonempty: they hold at least `id` and `title`). -/
def get_fields_cache (ticket_fields : List RawField) :
    Except ZendeskError (List (FKey × CacheVal)) :=
  let fields := build_id_fields ticket_fields
  if dmem (FKey.str "custom_field_options") fields then
    Except.error ZendeskError.typeError
  else
    Except.ok fields

/-- The entries held in an id-keyed cache (every value `build_id_fields`
inserts is an entry, so on reachable caches this is exactly `.values()`). -/
def cacheEntries (cache : List (FKey × CacheVal)) : List RawField :=
  cache.filterMap (fun p => match p.2 with
    | CacheVal.entry e => some e
    | CacheVal.optValues _ => none)

/-- The dict key the `fields` property (line 86) files an entry under:
`self.field_mapping.get(v['id'], v['title'])` — the mapping is consulted
with the entry's id only, the title is the fallback key. -/
def aliasKey (field_mapping : List (FKey × FKey)) (v : RawField) : FKey :=
  (dget v.id field_mapping).getD (FKey.str v.title)

/-- The `fields` property (lines 84-86), taken over the cache's entries. -/
def fields_view (field_mapping : List (FKey × FKey)) (es : List RawField) :
    List (FKey × RawField) :=
  buildDict (aliasKey field_mapping) id es

/-- The `title_fields` property (lines 88-90). -/
def title_fields_view (es : List RawField) : List (FKey × RawField) :=
  buildDict (fun v => FKey.str v.title) id es

/-- The `id_fields` property (lines 92-95), restricted to its entries. -/
def id_fields_view (es : List RawField) : List (FKey × RawField) :=
  buildDict RawField.id id es

/-- `Zendesk.get_field` (lines 97-101): try the alias view, then the id
view, then the title view. (`if not fd` tests Python falsiness; a field
entry is a nonempty dict, hence truthy, so the fallthrough happens exactly
when the previous lookup found nothing.) -/
def get_field (m : List (FKey × FKey)) (es : List RawField) (k : FKey) :
    Option RawField :=
  match dget k (fields_view m es) with
  | some fd => some fd
  | none =>
    match dget k (id_fields_view es) with
    | some fd => some fd
    | none => dget k (title_fields_view es)

/-- A value inside a ticket payload, as far as the formatter inspects it:
the `comment` value is either plain text or an already-structured dict
(line 112's `isinstance(data['comment'], dict)`). -/
inductive CVal where
  | str (s : String)
  | bool (b : Bool)
  | dict (kvs : List (String × CVal))

/-- One `{'id': ..., 'value': ...}` element of `custom_fields`. -/
structure TaskCF where
  id : FKey
  value : String
deriving DecidableEq

/-- A caller-supplied ticket payload, restricted to the keys
`format_task_data` reads or writes; all other keys pass through untouched
and are not modelled. -/
structure Payload where
  comment : Option CVal
  fields : Option (List (FKey × String))
  custom_fields : Option (List TaskCF)

/-- Lines 111-112: a plain (non-dict) comment is wrapped as
`{'body': comment, 'public': False}`; a dict passes through unchanged. -/
def normalizeComment (data : Payload) : Payload :=
  match data.comment with
  | none => data
  | some c =>
    { data with comment := some (match c with
        | CVal.dict kvs => CVal.dict kvs
        | other => CVal.dict [("body", other), ("public", CVal.bool false)]) }

/-- The per-entry loop of `format_task_data` (lines 116-122), iterating the
`fields` dict's pairs in order and accumulating `custom_fields`. A missing
field is skipped when `ignore_missing_fields` is set (`continue`), else the
assert at line 120 fails with its message; a value outside a declared
`options` list fails the bare assert at line 121 (empty message); otherwise
`{'id': fd['id'], 'value': v}` is appended. -/
def ftd_loop (m : List (FKey × FKey)) (es : List RawField)
    (ignore_missing : Bool) :
    List (FKey × String) → List TaskCF → Except ZendeskError (List TaskCF)
  | [], acc => Except.ok acc
  | (k, v) :: rest, acc =>
    match get_field m es k with
    | none =>
      if ignore_missing then ftd_loop m es ignore_missing rest acc
      else Except.error (ZendeskError.assertionError ("No match for field " ++ FKey.toMsg k))
    | some fd =>
      match fd.options with
      | some opts =>
        if opts.contains v then ftd_loop m es ignore_missing rest (acc ++ [⟨fd.id, v⟩])
        else Except.error (ZendeskError.assertionError "")
      | none => ftd_loop m es ignore_missing rest (acc ++ [⟨fd.id, v⟩])

/-- `Zendesk.format_task_data` (lines 110-123), against a populated field
registry (`m` the configured mapping, `es` the cached entries): normalize
the comment; when a `fields` key is present, pop it, rebuild
`custom_fields` via the loop, and return the mutated payload. -/
def format_task_data (m : List (FKey × FKey)) (es : List RawField)
    (ignore_missing : Bool) (data : Payload) : Except ZendeskError Payload :=
  let data' := normalizeComment data
  match data'.fields with
  | none => Except.ok data'
  | some fs =>
    match ftd_loop m es ignore_missing fs [] with
    | Except.ok cfs => Except.ok { data' with fields := none, custom_fields := some cfs }
    | Except.error e => Except.error e

/-! ### Dictionary lemmas -/

theorem dget_dinsert {κ β : Type} [DecidableEq κ] (k k' : κ) (v : β)
    (d : List (κ × β)) :
    dget k' (dinsert k v d) = if k = k' then some v else dget k' d := by
  induction d with
  | nil => simp [dinsert, dget]
  | cons p d ih =>
    obtain ⟨k'', v''⟩ := p
    by_cases h : k'' = k
    · subst h
      by_cases h' : k'' = k' <;> simp [dinsert, dget, h']
    · by_cases h' : k'' = k'
      · subst h'
        simp [dinsert, dget, h, Ne.symm h]
      · simp [dinsert, dget, h, h', ih]

theorem dget_foldl_dinsert {α κ β : Type} [DecidableEq κ] (key : α → κ)
    (val : α → β) (es : List α) (d0 : List (κ × β)) (k : κ) :
    dget k (es.foldl (fun d e => dinsert (key e) (val e) d) d0)
      = ((es.reverse.find? (fun e => decide (key e = k))).map val).or (dget k d0) := by
  induction es generalizing d0 with
  | nil => simp
  | cons e es ih =>
    simp only [List.foldl_cons, List.reverse_cons, List.find?_append]
    rw [ih]
    cases h : es.reverse.find? (fun e => decide (key e = k)) with
    | some e' => simp [Option.or]
    | none =>
      by_cases hk : key e = k
      · simp [List.find?, hk, dget_dinsert, Option.or]
      · simp [List.find?, hk, dget_dinsert, Option.or]

/-- The dict built from a key/value comprehension holds, at `k`, the value
of the last element whose key is `k`. -/
theorem dget_buildDict {α κ β : Type} [DecidableEq κ] (key : α → κ)
    (val : α → β) (es : List α) (k : κ) :
    dget k (buildDict key val es)
      = (es.reverse.find? (fun e => decide (key e = k))).map val := by
  rw [buildDict, dget_foldl_dinsert]
  cases (es.reverse.find? (fun e => decide (key e = k))).map val <;>
    simp [dget, Option.or]

/-- Every pair of a dict built by `build_id_fields` carries a field entry:
the `options` sentinel can only appear through line 107, never through the
comprehension of line 105. -/
theorem build_id_fields_values_are_entries (tf : List RawField) :
    ∀ p ∈ build_id_fields tf, ∃ e, p.2 = CacheVal.entry e := by
  have key : ∀ (l : List RawField) (d : List (FKey × CacheVal)),
      (∀ p ∈ d, ∃ e, p.2 = CacheVal.entry e) →
      ∀ p ∈ l.foldl (fun d e => dinsert e.id (CacheVal.entry e) d) d,
        ∃ e, p.2 = CacheVal.entry e := by
    intro l
    induction l with
    | nil => intro d hd; simpa using hd
    | cons x l ih =>
      intro d hd
      refine ih _ ?_
      intro p hp
      have hstep : ∀ (d' : List (FKey × CacheVal)),
          (∀ q ∈ d', ∃ e, q.2 = CacheVal.entry e) →
          ∀ q ∈ dinsert x.id (CacheVal.entry x) d', ∃ e, q.2 = CacheVal.entry e := by
        intro d'
        induction d' with
        | nil => intro _ q hq; simp [dinsert] at hq; exact ⟨x, by simp [hq]⟩
        | cons y d' ihd =>
          intro hall q hq
          by_cases hy : y.1 = x.id
          · rw [show dinsert x.id (CacheVal.entry x) (y :: d')
                  = (x.id, CacheVal.entry x) :: d' by simp [dinsert, hy]] at hq
            rcases List.mem_cons.mp hq with h | h
            · exact ⟨x, by simp [h]⟩
            · exact hall q (List.mem_cons_of_mem _ h)
          · rw [show dinsert x.id (CacheVal.entry x) (y :: d')
                  = y :: dinsert x.id (CacheVal.entry x) d' by simp [dinsert, hy]] at hq
            rcases List.mem_cons.mp hq with h | h
            · exact hall q (h ▸ List.mem_cons_self y d')
            · exact ihd (fun q hq => hall q (List.mem_cons_of_mem _ hq)) q h
      exact hstep d hd p hp
  intro p hp
  exact key tf [] (by simp) p hp

/-! ### Payload lemmas -/

theorem normalizeComment_fields (d : Payload) :
    (normalizeComment d).fields = d.fields := by
  obtain ⟨c, f, cf⟩ := d
  cases c <;> simp [normalizeComment]

theorem normalizeComment_setFields (d : Payload) (f : Option (List (FKey × String))) :
    normalizeComment { d with fields := f }
      = { normalizeComment d with fields := f } := by
  obtain ⟨c, f', cf⟩ := d
  cases c <;> simp [normalizeComment]

theorem normalizeComment_set_fields_cf (d : Payload)
    (f : Option (List (FKey × String))) (cf : Option (List TaskCF)) :
    normalizeComment { d with fields := f, custom_fields := cf }
      = { normalizeComment d with fields := f, custom_fields := cf } := by
  obtain ⟨c, f', cf'⟩ := d
  cases c <;> simp [normalizeComment]

theorem normalizeComment_idem (d : Payload) :
    normalizeComment (normalizeComment d) = normalizeComment d := by
  obtain ⟨c, f, cf⟩ := d
  cases c with
  | none => simp [normalizeComment]
  | some c => cases c <;> simp [normalizeComment]

/-! ### The claims -/

/-- C1: the claim reads "for every client constructed with the auto-retry
flag disabled, a 429 response is not retried". The code violates it: line
16 of `__init__` assigns the literal `True` to `self.auto_retry`, ignoring
the constructor argument, so a client constructed with the flag disabled
still sleeps for the Retry-After duration and re-issues the request. -/
theorem c1_auto_retry_flag_ignored :
    (Zendesk.init "s" [] defaultEndpoint false 30).auto_retry = true
  ∧ (Zendesk.init "s" [] defaultEndpoint false 30).request "GET" "/x.json"
      ⟨[], none, []⟩
      [⟨429, [("Retry-After", "1")], "", none, none⟩, ⟨200, [], "", none, none⟩]
      = (Except.ok ⟨200, [], "", none, none⟩,
         [Event.request ⟨"GET", "https://s.zendesk.com/api/v2/x.json", ⟨[], none, []⟩⟩,
          Event.sleep 1,
          Event.request ⟨"GET", "https://s.zendesk.com/api/v2/x.json", ⟨[], none, []⟩⟩]) :=
  ⟨rfl, rfl⟩

/-- C2: a first response of status 429 with `Retry-After: 2`, followed by a
non-429 response, produces exactly one sleep of 2 seconds followed by
exactly one re-issued request identical in method, url and argument bundle,
and the call's final result is the ordinary handling of that second
response. (The hypothesis `hres` — the resolved url is an absolute http
url — holds whenever the configured endpoint is, in particular for the
default endpoint.) -/
theorem c2_retry_once (z : Zendesk) (method url : String) (args : ReqArgs)
    (r1 r2 : Resp) (rest : List Resp)
    (har : z.auto_retry = true) (h1 : r1.status = 429)
    (hra : dget "Retry-After" r1.headers = some "2")
    (h2 : r2.status ≠ 429)
    (hres : pyStartsWith (resolveUrl z url) "http" = true) :
    z.request method url args (r1 :: r2 :: rest)
      = (handleResp method (resolveUrl z url) args r2,
         [Event.request ⟨method, resolveUrl z url, args⟩,
          Event.sleep 2,
          Event.request ⟨method, resolveUrl z url, args⟩]) := by
  have hu : resolveUrl z (resolveUrl z url) = resolveUrl z url := by
    unfold resolveUrl
    rw [show pyStartsWith (if pyStartsWith url "http" then url else z.endpoint ++ url) "http"
          = true from hres]
    simp
  have hpi : pyInt "2" = some 2 := by decide
  have h2' : (r2.status == 429) = false := by
    simp [h2]
  simp [Zendesk.request, requestLoop, har, h1, hra, hpi, hu, h2']

/-- C2 witness: the theorem at a concrete client, request and script. -/
theorem c2_retry_once_witness :
    (Zendesk.init "s" [] defaultEndpoint true 30).request "GET" "/t.json"
      ⟨[], none, []⟩
      [⟨429, [("Retry-After", "2")], "", none, none⟩,
       ⟨200, [], "ok", some J.null, none⟩]
      = (Except.ok ⟨200, [], "ok", some J.null, some J.null⟩,
         [Event.request ⟨"GET", "https://s.zendesk.com/api/v2/t.json", ⟨[], none, []⟩⟩,
          Event.sleep 2,
          Event.request ⟨"GET", "https://s.zendesk.com/api/v2/t.json", ⟨[], none, []⟩⟩]) :=
  (c2_retry_once (Zendesk.init "s" [] defaultEndpoint true 30) "GET" "/t.json"
    ⟨[], none, []⟩ ⟨429, [("Retry-After", "2")], "", none, none⟩
    ⟨200, [], "ok", some J.null, none⟩ [] rfl rfl rfl (by decide) (by decide)).trans rfl

/-- C3: any response of status at least 400 that the rate-limit policy does
not intercept (auto-retry off, or status not 429) makes `request` raise the
`Bad status` ZendeskError — the spec's `RequestFailed` — carrying the
method, the resolved url, the status code, the response body text and the
call's argument bundle. -/
theorem c3_bad_status_error (z : Zendesk) (method url : String) (args : ReqArgs)
    (ret : Resp) (rest : List Resp)
    (h400 : 400 ≤ ret.status)
    (hnr : z.auto_retry = false ∨ ret.status ≠ 429) :
    z.request method url args (ret :: rest)
      = (Except.error (ZendeskError.badStatus method (resolveUrl z url)
           ret.status ret.text args),
         [Event.request ⟨method, resolveUrl z url, args⟩]) := by
  have hguard : (z.auto_retry && ret.status == 429) = false := by
    rcases hnr with h | h
    · simp [h]
    · simp [h]
  simp [Zendesk.request, requestLoop, hguard, handleResp, h400]

/-- C3 witness: a 500 response with a body fails with the structured
error. -/
theorem c3_bad_status_error_witness :
    (Zendesk.init "s" [] defaultEndpoint true 30).request "POST" "/tickets.json"
      ⟨[], some "payload", []⟩ [⟨500, [], "oops", none, none⟩]
      = (Except.error (ZendeskError.badStatus "POST"
           "https://s.zendesk.com/api/v2/tickets.json" 500 "oops"
           ⟨[], some "payload", []⟩),
         [Event.request ⟨"POST", "https://s.zendesk.com/api/v2/tickets.json",
            ⟨[], some "payload", []⟩⟩]) :=
  (c3_bad_status_error (Zendesk.init "s" [] defaultEndpoint true 30) "POST"
    "/tickets.json" ⟨[], some "payload", []⟩ ⟨500, [], "oops", none, none⟩ []
    (by decide) (Or.inr (by decide))).trans rfl

/-- C9: on a 429 handled with auto-retry in effect, the code reads and
integer-parses the `Retry-After` header before any status-code handling: a
missing header escapes as a raw KeyError and a non-integer value as a raw
ValueError — not as the `Bad status` error — although 429 is at least
400. -/
theorem c9_retry_after_parse_first (z : Zendesk) (method url : String)
    (args : ReqArgs) (ret : Resp) (rest : List Resp)
    (har : z.auto_retry = true) (h429 : ret.status = 429) :
    (dget "Retry-After" ret.headers = none →
      z.request method url args (ret :: rest)
        = (Except.error (ZendeskError.keyError "Retry-After"),
           [Event.request ⟨method, resolveUrl z url, args⟩]))
  ∧ (∀ s, dget "Retry-After" ret.headers = some s → pyInt s = none →
      z.request method url args (ret :: rest)
        = (Except.error (ZendeskError.valueError s),
           [Event.request ⟨method, resolveUrl z url, args⟩])) := by
  constructor
  · intro hnone
    simp [Zendesk.request, requestLoop, har, h429, hnone]
  · intro s hs hparse
    simp [Zendesk.request, requestLoop, har, h429, hs, hparse]

/-- C9 witness: a 429 with no `Retry-After` header fails with the raw
KeyError. -/
theorem c9_retry_after_parse_first_witness :
    (Zendesk.init "s" [] defaultEndpoint true 30).request "GET" "/x.json"
      ⟨[], none, []⟩ [⟨429, [], "limited", none, none⟩]
      = (Except.error (ZendeskError.keyError "Retry-After"),
         [Event.request ⟨"GET", "https://s.zendesk.com/api/v2/x.json", ⟨[], none, []⟩⟩]) :=
  (c9_retry_after_parse_first (Zendesk.init "s" [] defaultEndpoint true 30)
    "GET" "/x.json" ⟨[], none, []⟩ ⟨429, [], "limited", none, none⟩ []
    rfl rfl).1 rfl

/-- C6 counterexample: the claim reads "giving both email and external_id
is an error". It is not: the assert at line 31 only requires `email or
external_id`, so a call with both set is accepted, the email branch wins,
and the users array is returned. -/
theorem c6_both_args_accepted :
    (Zendesk.init "s" [] defaultEndpoint true 30).get_users (some "a@b")
      (some "x42")
      [⟨200, [], "", some (J.obj [("users", J.arr [J.str "u1"])]), none⟩]
      = (Except.ok (J.arr [J.str "u1"]),
         [Event.request ⟨"GET", "https://s.zendesk.com/api/v2/users.json",
            ⟨[("query", "a@b")], none, []⟩⟩]) := rfl

/-- C6 amended: `get_users` fails with the AssertionError iff neither email
nor external_id is (truthily) given; when at least one is given it issues a
GET to `/users.json` — email taking precedence as a `query` param, else
`external_id` — and returns the `users` member of the parsed response. -/
theorem c6_get_users_amended (z : Zendesk) (email external_id : Option String)
    (r : Resp) (rest : List Resp) (us : J)
    (hok : r.status < 400)
    (hjson : r.content = some (J.obj [("users", us)])) :
    ((truthy email || truthy external_id) = false →
      z.get_users email external_id (r :: rest)
        = (Except.error (ZendeskError.assertionError assertMsgUsers), []))
  ∧ ((truthy email || truthy external_id) = true →
      z.get_users email external_id (r :: rest)
        = (Except.ok us,
           [Event.request ⟨"GET", resolveUrl z "/users.json",
              ⟨if truthy email then [("query", email.getD "")]
               else [("external_id", external_id.getD "")], none, []⟩⟩])) := by
  constructor
  · intro h
    simp [Zendesk.get_users, h]
  · intro h
    have h429 : (r.status == 429) = false := by
      have : r.status ≠ 429 := by omega
      simp [this]
    have h400 : ¬ 400 ≤ r.status := by omega
    simp [Zendesk.get_users, h, Zendesk.get, Zendesk.request, requestLoop,
      h429, handleResp, h400, subscript, hjson, dget]

/-- C6 amended witness: external_id alone succeeds through the theorem. -/
theorem c6_get_users_amended_witness :
    (Zendesk.init "s" [] defaultEndpoint true 30).get_users none (some "x42")
      [⟨200, [], "", some (J.obj [("users", J.arr [J.str "u9"])]), none⟩]
      = (Except.ok (J.arr [J.str "u9"]),
         [Event.request ⟨"GET", "https://s.zendesk.com/api/v2/users.json",
            ⟨[("external_id", "x42")], none, []⟩⟩]) :=
  ((c6_get_users_amended (Zendesk.init "s" [] defaultEndpoint true 30) none
    (some "x42") ⟨200, [], "", some (J.obj [("users", J.arr [J.str "u9"])]), none⟩
    [] (J.arr [J.str "u9"]) (by decide) rfl).2 rfl).trans rfl

/-- C7: the claim reads "if the raw field-listing response contains an
options sub-collection under `custom_field_options`, its value list is
stored in the cache under the literal key `options`". The code never does
this: line 106 tests the id-keyed dict built at line 105 for the string key
`'custom_field_options'`, not the raw entries, so a response whose entry
carries a `custom_field_options` sub-collection yields a cache with no
`options` key at all (and the attach branch, were it ever taken, would
subscript an entry dict's keys and raise TypeError). Evaluated at the
failing input. -/
theorem c7_options_never_attached :
    get_fields_cache [⟨FKey.num 123, "Priority", none, some [⟨"a"⟩, ⟨"b"⟩]⟩]
      = Except.ok [(FKey.num 123,
          CacheVal.entry ⟨FKey.num 123, "Priority", none, some [⟨"a"⟩, ⟨"b"⟩]⟩)]
  ∧ dmem (FKey.str "options")
      [(FKey.num 123,
          CacheVal.entry ⟨FKey.num 123, "Priority", none, some [⟨"a"⟩, ⟨"b"⟩]⟩)] = false :=
  ⟨rfl, rfl⟩

/-- C8 counterexample: a mapping entry keyed by a field's display title is
never consulted — line 86 looks the mapping up by `v['id']` only — so the
alias view keys the field under its own title, and `get_field` at the
configured alias finds nothing. -/
theorem c8_title_keyed_mapping_ignored :
    fields_view [(FKey.str "Priority", FKey.str "prio")]
        [⟨FKey.num 1, "Priority", none, none⟩]
      = [(FKey.str "Priority", ⟨FKey.num 1, "Priority", none, none⟩)]
  ∧ get_field [(FKey.str "Priority", FKey.str "prio")]
      [⟨FKey.num 1, "Priority", none, none⟩] (FKey.str "prio") = none :=
  ⟨rfl, rfl⟩

/-- C8 amended: the alias view consults the mapping by the field's numeric
id only: each entry is keyed under the mapping's value at the entry's id
when one exists, else under the entry's own title (so title-keyed mapping
entries have no effect), the last entry winning a key collision; and
`get_field` at a key the alias view holds returns what it holds. -/
theorem c8_alias_view_by_id (m : List (FKey × FKey)) (es : List RawField)
    (k : FKey) :
    dget k (fields_view m es)
      = es.reverse.find? (fun e => decide (aliasKey m e = k))
  ∧ (∀ e, dget k (fields_view m es) = some e → get_field m es k = some e) := by
  constructor
  · have h := dget_buildDict (aliasKey m) id es k
    simpa using h
  · intro e he
    simp [get_field, he]

/-- C8 amended witness: an id-keyed mapping entry does take effect, and
`get_field` at the alias returns the entry. -/
theorem c8_alias_view_by_id_witness :
    dget (FKey.str "prio")
        (fields_view [(FKey.num 1, FKey.str "prio")]
          [⟨FKey.num 1, "Priority", none, none⟩])
      = some ⟨FKey.num 1, "Priority", none, none⟩
  ∧ get_field [(FKey.num 1, FKey.str "prio")]
      [⟨FKey.num 1, "Priority", none, none⟩] (FKey.str "prio")
      = some ⟨FKey.num 1, "Priority", none, none⟩ :=
  ⟨rfl, (c8_alias_view_by_id [(FKey.num 1, FKey.str "prio")]
    [⟨FKey.num 1, "Priority", none, none⟩] (FKey.str "prio")).2
    ⟨FKey.num 1, "Priority", none, none⟩ rfl⟩

/-- C4: a fields entry whose key resolves to no field metadata is skipped
silently when `ignore_missing_fields` is set — formatting the payload is
the same as formatting it without that entry, so no `custom_fields` element
arises from it — and fails the assert at line 120, which names the key,
when the flag is off. -/
theorem c4_missing_field (m : List (FKey × FKey)) (es : List RawField)
    (k : FKey) (v : String) (rest : List (FKey × String)) (data : Payload)
    (hk : get_field m es k = none)
    (hf : data.fields = some ((k, v) :: rest)) :
    format_task_data m es true data
      = format_task_data m es true { data with fields := some rest }
  ∧ format_task_data m es false data
      = Except.error (ZendeskError.assertionError
          ("No match for field " ++ FKey.toMsg k)) := by
  obtain ⟨c, f, cf⟩ := data
  have hf' : f = some ((k, v) :: rest) := hf
  subst hf'
  constructor
  · cases c <;> simp [format_task_data, normalizeComment, ftd_loop, hk]
  · cases c <;> simp [format_task_data, normalizeComment, ftd_loop, hk]

/-- C4 witness: a payload whose single fields entry is unresolvable. -/
theorem c4_missing_field_witness :
    format_task_data [] [] true ⟨none, some [(FKey.str "ghost", "v")], none⟩
      = Except.ok ⟨none, none, some []⟩
  ∧ format_task_data [] [] false ⟨none, some [(FKey.str "ghost", "v")], none⟩
      = Except.error (ZendeskError.assertionError "No match for field ghost") :=
  ⟨((c4_missing_field [] [] (FKey.str "ghost") "v" []
      ⟨none, some [(FKey.str "ghost", "v")], none⟩ rfl rfl).1).trans rfl,
   (c4_missing_field [] [] (FKey.str "ghost") "v" []
      ⟨none, some [(FKey.str "ghost", "v")], none⟩ rfl rfl).2⟩

/-- C5: for a fields entry whose resolved metadata declares an options
list, a value not in the list fails the bare assert of line 121, and a
listed value appends `{'id': fd['id'], 'value': v}` to the accumulated
`custom_fields` and continues with the remaining entries. -/
theorem c5_options_validation (m : List (FKey × FKey)) (es : List RawField)
    (ig : Bool) (k : FKey) (v : String) (rest : List (FKey × String))
    (acc : List TaskCF) (fd : RawField) (opts : List String)
    (hk : get_field m es k = some fd) (ho : fd.options = some opts) :
    (opts.contains v = false →
      ftd_loop m es ig ((k, v) :: rest) acc
        = Except.error (ZendeskError.assertionError ""))
  ∧ (opts.contains v = true →
      ftd_loop m es ig ((k, v) :: rest) acc
        = ftd_loop m es ig rest (acc ++ [⟨fd.id, v⟩])) := by
  constructor
  · intro h
    have h' : ¬ v ∈ opts := by simpa using h
    simp [ftd_loop, hk, ho, h']
  · intro h
    have h' : v ∈ opts := by simpa using h
    simp [ftd_loop, hk, ho, h']

/-- C5 witness: one listed and, through the theorem, the cons step of a
field constrained to options. -/
theorem c5_options_validation_witness :
    ftd_loop [] [⟨FKey.num 7, "Pri", some ["hi", "lo"], none⟩] false
      [(FKey.str "Pri", "mid")] []
      = Except.error (ZendeskError.assertionError "")
  ∧ ftd_loop [] [⟨FKey.num 7, "Pri", some ["hi", "lo"], none⟩] false
      [(FKey.str "Pri", "hi")] []
      = Except.ok [⟨FKey.num 7, "hi"⟩] :=
  ⟨(c5_options_validation [] [⟨FKey.num 7, "Pri", some ["hi", "lo"], none⟩]
      false (FKey.str "Pri") "mid" [] [] ⟨FKey.num 7, "Pri", some ["hi", "lo"], none⟩
      ["hi", "lo"] rfl rfl).1 rfl,
   ((c5_options_validation [] [⟨FKey.num 7, "Pri", some ["hi", "lo"], none⟩]
      false (FKey.str "Pri") "hi" [] [] ⟨FKey.num 7, "Pri", some ["hi", "lo"], none⟩
      ["hi", "lo"] rfl rfl).2 rfl).trans rfl⟩

/-- C10: with the field registry in a fixed populated state,
`format_task_data` is idempotent on any payload it accepts: the first
application wraps a plain comment into a dict (which the second passes
through) and pops the `fields` key (so the second performs no
`custom_fields` rewriting). -/
theorem c10_format_idempotent (m : List (FKey × FKey)) (es : List RawField)
    (ig : Bool) (d d' : Payload)
    (h : format_task_data m es ig d = Except.ok d') :
    format_task_data m es ig d' = Except.ok d' := by
  rw [format_task_data] at h
  cases hx : (normalizeComment d).fields with
  | none =>
    simp only [hx] at h
    have hd' : d' = normalizeComment d := by simpa using h.symm
    subst hd'
    simp only [format_task_data, normalizeComment_idem, hx]
  | some fs =>
    simp only [hx] at h
    cases hloop : ftd_loop m es ig fs [] with
    | error e => simp [hloop] at h
    | ok cfs =>
      simp only [hloop] at h
      have hd' :
          d' = { normalizeComment d with fields := none, custom_fields := some cfs } := by
        simpa using h.symm
      subst hd'
      simp only [format_task_data, normalizeComment_set_fields_cf, normalizeComment_idem]

/-- C10 witness: re-formatting an already formatted payload (wrapped
comment, popped fields) changes nothing. -/
theorem c10_format_idempotent_witness :
    format_task_data [] [⟨FKey.num 1, "T", none, none⟩] false
      ⟨some (CVal.dict [("body", CVal.str "hi"), ("public", CVal.bool false)]),
        none, some [⟨FKey.num 1, "x"⟩]⟩
      = Except.ok
        ⟨some (CVal.dict [("body", CVal.str "hi"), ("public", CVal.bool false)]),
          none, some [⟨FKey.num 1, "x"⟩]⟩ :=
  c10_format_idempotent [] [⟨FKey.num 1, "T", none, none⟩] false
    ⟨some (CVal.str "hi"), some [(FKey.str "T", "x")], none⟩
    ⟨some (CVal.dict [("body", CVal.str "hi"), ("public", CVal.bool false)]),
      none, some [⟨FKey.num 1, "x"⟩]⟩ rfl

end PyZendesk
